import Mathlib

/-
Verification of the zod-style runtime validator (src/types.ts, src/math.ts).

The embedding models JavaScript numbers by their shortest decimal
representation: a finite JS number is `JsNum.finite m e`, denoting the
rational m / 10^e, together with NaN and the two infinities.  This captures
exactly the observable that the source relies on: `val.toString()` prints the
shortest decimal form — plain notation for magnitudes in [1e-6, 1e21) and
exponential notation ("1e-7", "1e+21") outside it — and `toFixed`/`parseInt`
rescale that string.  Both notation regimes are modelled, including
`parseInt` stopping at the "e" of an exponential form and `toFixed` rounding
half away from zero.  `toFixed` raises a RangeError above 100 fraction
digits, which cannot happen for a value representable as an IEEE double
(at most 17 significant digits), so it is not modelled.  Comparisons follow
IEEE semantics: every comparison against NaN is false.

Strings are Lean strings (`String.length` counts code points where JS counts
UTF-16 units; the two agree on the Basic Multilingual Plane, which is the
scope of this model).  A stored RegExp is modelled by its `test` function.
-/

namespace Zod

/-- A JavaScript number, seen through its shortest decimal representation:
`finite m e` denotes m / 10^e. -/
inductive JsNum where
  | nan
  | posInf
  | negInf
  | finite (m : Int) (e : Nat)
deriving DecidableEq, Repr

/-- Normalize a decimal representation: strip trailing fractional zeros, so the
second component is the number of fraction digits `toString` prints
(for 49.90 represented as 4990/10^2 this gives 499/10^1). -/
def normFin : Int → Nat → Int × Nat
  | m, 0 => (m, 0)
  | m, e + 1 => if m % 10 = 0 then normFin (m / 10) e else (m, e + 1)

/-- JS `<` : false whenever either side is NaN, otherwise the numeric order. -/
def jsLt : JsNum → JsNum → Bool
  | .nan, _ | _, .nan => false
  | .negInf, .negInf => false
  | .negInf, _ => true
  | _, .negInf => false
  | .posInf, _ => false
  | .finite _ _, .posInf => true
  | .finite m1 e1, .finite m2 e2 => m1 * 10 ^ e2 < m2 * 10 ^ e1

/-- JS `<=` : false whenever either side is NaN, otherwise the numeric order. -/
def jsLe : JsNum → JsNum → Bool
  | .nan, _ | _, .nan => false
  | .negInf, _ => true
  | _, .negInf => false
  | _, .posInf => true
  | .posInf, _ => false
  | .finite m1 e1, .finite m2 e2 => m1 * 10 ^ e2 ≤ m2 * 10 ^ e1

/-- JS `>` on numbers. -/
def jsGt (a b : JsNum) : Bool := jsLt b a

/-- JS `>=` on numbers. -/
def jsGe (a b : JsNum) : Bool := jsLe b a

/-- JS `Number.isInteger`: a finite number whose normalized form has no
fraction digits. -/
def jsIsInteger : JsNum → Bool
  | .finite m e => (normFin m e).2 == 0
  | _ => false

/-- JS `Number.isFinite`. -/
def jsIsFinite : JsNum → Bool
  | .finite _ _ => true
  | _ => false

/-- JS truthiness of a number: NaN and (-)0 are falsy, everything else truthy. -/
def jsTruthy : JsNum → Bool
  | .nan => false
  | .finite m _ => m ≠ 0
  | _ => true

/-- Number of decimal digits of a natural number, with an explicit fuel bound
(the recursion stops after at most that many divisions; `a + 1` always
suffices since a number below 10^f has at most f digits). -/
def natDigitCountAux : Nat → Nat → Nat
  | 0, _ => 1
  | fuel + 1, a => if a < 10 then 1 else natDigitCountAux fuel (a / 10) + 1

/-- Number of decimal digits of a natural number (1 for 0, as in "0"). -/
def natDigitCount (a : Nat) : Nat := natDigitCountAux (a + 1) a

/-- Number of trailing decimal zeros of a natural number, with fuel; the
digit count of the number is always enough fuel. -/
def trailingZeroCount : Nat → Nat → Nat
  | 0, _ => 0
  | fuel + 1, a => if a ≠ 0 ∧ a % 10 = 0 then trailingZeroCount fuel (a / 10) + 1 else 0

/-- JS `Number.prototype.toString` (NaN and the infinities print their
names).  Plain decimal notation for magnitudes in [1e-6, 1e21) and zero;
exponential notation ("1.5e-8", "1e+21": one leading significant digit, a
dot and the rest when there is more than one, and a signed decimal exponent)
otherwise. -/
def jsNumToString : JsNum → String
  | .nan => "NaN"
  | .posInf => "Infinity"
  | .negInf => "-Infinity"
  | .finite m e =>
    let p := normFin m e
    if p.1 = 0 then "0"
    else
      let sign := if p.1 < 0 then "-" else ""
      let a := p.1.natAbs
      let dm := natDigitCount a
      let n : Int := (dm : Int) - (p.2 : Int)
      if -6 < n ∧ n ≤ 21 then
        if p.2 = 0 then sign ++ toString a
        else
          let ip := a / 10 ^ p.2
          let fp := a % 10 ^ p.2
          sign ++ toString ip ++ "." ++ (toString (10 ^ p.2 + fp)).drop 1
      else
        let z := trailingZeroCount dm a
        let st := toString (a / 10 ^ z)
        let mantissa := if st.length = 1 then st else st.take 1 ++ "." ++ st.drop 1
        let expSign := if n - 1 < 0 then "-" else "+"
        sign ++ mantissa ++ "e" ++ expSign ++ toString (n - 1).natAbs

/-- The fraction-digit count `(x.toString().split(".")[1] || "").length` of a
JS number.  In plain decimal notation this is the normalized exponent.  In
exponential notation the part after the dot is the mantissa digits beyond the
first followed by the exponent suffix ("5e-8" for 1.5e-8, length 4), and
there is no dot at all when the mantissa has a single significant digit
("1e+21", length 0).  NaN and the infinities print without a dot. -/
def JsNum.decimalCount : JsNum → Nat
  | .finite m e =>
    if (normFin m e).1 = 0 then 0
    else if -6 < (natDigitCount (normFin m e).1.natAbs : Int) - ((normFin m e).2 : Int) ∧
        (natDigitCount (normFin m e).1.natAbs : Int) - ((normFin m e).2 : Int) ≤ 21 then
      (normFin m e).2
    else
      let dm := natDigitCount (normFin m e).1.natAbs
      let z := trailingZeroCount dm (normFin m e).1.natAbs
      let k := dm - z
      if k = 1 then 0
      else (k - 1) + 2 + natDigitCount (((dm : Int) - ((normFin m e).2 : Int)) - 1).natAbs
  | _ => 0

/-- The integer `parseInt(x.toFixed(d).replace(".", ""))` for a finite JS
number m / 10^e.  For |x| >= 1e21, `toFixed` returns the exponential
toString, the replace removes the mantissa dot and `parseInt` stops at the
"e", yielding the signed significant digits (trailing zeros stripped).
Otherwise `toFixed` prints |x| rounded to exactly d fraction digits (half
away from zero) with the sign in front, and removing the dot yields exactly
that rounded integer; when d covers all fraction digits this is the mantissa
scaled to d digits, with no rounding. -/
def toFixedInt (m : Int) (e : Nat) (d : Nat) : Int :=
  if (normFin m e).1 = 0 then 0
  else if 22 ≤ (natDigitCount (normFin m e).1.natAbs : Int) - ((normFin m e).2 : Int) then
    Int.sign (normFin m e).1 *
      Int.ofNat ((normFin m e).1.natAbs /
        10 ^ trailingZeroCount (natDigitCount (normFin m e).1.natAbs) (normFin m e).1.natAbs)
  else if (normFin m e).2 ≤ d then
    (normFin m e).1 * 10 ^ (d - (normFin m e).2)
  else
    Int.sign (normFin m e).1 *
      Int.ofNat (((normFin m e).1.natAbs + 5 * 10 ^ ((normFin m e).2 - d - 1)) /
        10 ^ ((normFin m e).2 - d))

/-- src/math.ts, `floatSafeRemainder(val, step)`:

  valDecCount  = (val.toString().split(".")[1] || "").length
  stepDecCount = likewise for step
  decCount     = max of the two
  valInt       = parseInt(val.toFixed(decCount).replace(".", ""))
  stepInt      = likewise for step
  return (valInt % stepInt) / Math.pow(10, decCount)

The fraction-digit counts and parseInt-of-toFixed integers are modelled by
`JsNum.decimalCount` and `toFixedInt`, covering both toString notation
regimes.  JS `%` on integers is the truncated remainder (`Int.tmod`), and
dividing it by 10^decCount is recorded by keeping the exponent.  When
`stepInt` is 0 the JS remainder is NaN, and when either argument is NaN or
infinite, `parseInt` of its name yields NaN, which propagates through `%`
and `/`. -/
def floatSafeRemainder (val step : JsNum) : JsNum :=
  match val, step with
  | .finite vm ve, .finite sm se =>
    let decCount := max (JsNum.decimalCount (.finite vm ve)) (JsNum.decimalCount (.finite sm se))
    let valInt := toFixedInt vm ve decCount
    let stepInt := toFixedInt sm se decCount
    if stepInt = 0 then JsNum.nan
    else JsNum.finite (Int.tmod valInt stepInt) decCount
  | _, _ => JsNum.nan

/-- An untrusted runtime value handed to a schema. -/
inductive Value where
  | str (s : String)
  | num (n : JsNum)
  | bool (b : Bool)
  | undef
  | null
deriving DecidableEq, Repr

/-- JS template-literal coercion of a value to a string. -/
def Value.jsToString : Value → String
  | .str s => s
  | .num n => jsNumToString n
  | .bool b => if b then "true" else "false"
  | .undef => "undefined"
  | .null => "null"

/-- The whitespace class removed by JS `String.prototype.trim`
(ECMAScript WhiteSpace and LineTerminator code points). -/
def isJsWhitespace (c : Char) : Bool :=
  let n := c.toNat
  (9 ≤ n && n ≤ 13) || n == 32 || n == 160 || n == 0x1680 ||
  (0x2000 ≤ n && n ≤ 0x200A) || n == 0x2028 || n == 0x2029 ||
  n == 0x202F || n == 0x205F || n == 0x3000 || n == 0xFEFF

/-- JS `String.prototype.trim`. -/
def jsTrim (s : String) : String :=
  let l := s.toList.dropWhile isJsWhitespace
  String.mk ((l.reverse.dropWhile isJsWhitespace).reverse)

/-- True when the character list contains two consecutive dots
(the `(?!.*\.\.)` lookahead of the email pattern). -/
def hasDoubleDot : List Char → Bool
  | [] => false
  | [_] => false
  | a :: b :: rest => (a == '.' && b == '.') || hasDoubleDot (b :: rest)

/-- Character class `[A-Z0-9_+-\.]` of the email pattern (case-insensitive);
note that `+-\.` is the range 0x2B-0x2E, so it also admits the comma. -/
def emailLocalChar (c : Char) : Bool :=
  c.isAlpha || c.isDigit || c == '_' || ('+' ≤ c && c ≤ '.')

/-- Character class `[A-Z0-9_+-]` (case-insensitive): the character that must
immediately precede the `@`. -/
def emailLocalLastChar (c : Char) : Bool :=
  c.isAlpha || c.isDigit || c == '_' || c == '+' || c == '-'

/-- One domain label `[A-Z0-9][A-Z0-9\-]*` (case-insensitive). -/
def emailLabelOk : List Char → Bool
  | [] => false
  | c :: rest => (c.isAlpha || c.isDigit) && rest.all (fun d => d.isAlpha || d.isDigit || d == '-')

/-- The trailing `[A-Z]{2,}` of the email pattern (case-insensitive). -/
def emailTldOk (l : List Char) : Bool :=
  2 ≤ l.length && l.all Char.isAlpha

/-- Domain part `([A-Z0-9][A-Z0-9\-]*\.)+[A-Z]{2,}$`: splitting on the literal
dots must give at least one label followed by a TLD. -/
def emailDomainOk (d : List Char) : Bool :=
  let parts := d.splitOn '.'
  match parts.reverse with
  | [] => false
  | [_] => false
  | tld :: labelsRev => emailTldOk tld && labelsRev.all emailLabelOk

/-- src/types.ts email check: the anchored regex
`^(?!\.)(?!.*\.\.)([A-Z0-9_+-\.]*)[A-Z0-9_+-]@([A-Z0-9][A-Z0-9\-]*\.)+[A-Z]{2,}$`
with the `i` flag.  The local part is everything before the first `@` (the
local character classes exclude `@`); its last character is constrained by the
second class; the two lookaheads forbid a leading dot and any `..`. -/
def emailTest (s : String) : Bool :=
  let cs := s.toList
  let noLeadingDot := match cs with
    | '.' :: _ => false
    | _ => true
  let localPart := cs.takeWhile (fun c => c != '@')
  let rest := cs.dropWhile (fun c => c != '@')
  let localOk := match localPart.reverse with
    | [] => false
    | c :: front => emailLocalLastChar c && front.all emailLocalChar
  noLeadingDot && !(hasDoubleDot cs) &&
    match rest with
    | [] => false
    | _ :: domain => localOk && emailDomainOk domain

/-- src/types.ts `ZodStringCheck`.  A stored RegExp is modelled by its `test`
function. -/
inductive ZodStringCheck where
  | min (value : JsNum) (message : Option String)
  | max (value : JsNum) (message : Option String)
  | length (value : JsNum) (message : Option String)
  | email (message : Option String)
  | regex (test : String → Bool) (message : Option String)
  | trim (message : Option String)

/-- True exactly for a trim check. -/
def ZodStringCheck.isTrim : ZodStringCheck → Bool
  | .trim _ => true
  | _ => false

/-- src/types.ts `ZodNumberCheck`. -/
inductive ZodNumberCheck where
  | min (value : JsNum) (isInclusive : Bool) (message : Option String)
  | max (value : JsNum) (isInclusive : Bool) (message : Option String)
  | int (message : Option String)
  | multipleOf (value : JsNum) (message : Option String)
  | finite (message : Option String)
deriving DecidableEq, Repr

/-- True exactly for a min or max (bound) check. -/
def ZodNumberCheck.isBoundCheck : ZodNumberCheck → Bool
  | .min _ _ _ => true
  | .max _ _ _ => true
  | _ => false

/-- JS strict equality on numbers (NaN equals nothing). -/
def jsNumEq : JsNum → JsNum → Bool
  | .nan, _ | _, .nan => false
  | .posInf, .posInf => true
  | .negInf, .negInf => true
  | .finite m1 e1, .finite m2 e2 => m1 * 10 ^ e2 == m2 * 10 ^ e1
  | _, _ => false

/-- Embed a string length into a JS number. -/
def JsNum.ofNat (n : Nat) : JsNum := .finite (Int.ofNat n) 0

/-- Result of `_parse` (src/types.ts): `{isValid: true, data}` or
`{isValid: false, reason?}`. -/
inductive ParseResult where
  | valid (data : Value)
  | invalid (reason : Option String)
deriving DecidableEq, Repr

/-- The check loop of `ZodString._parse`, evaluated in append order after the
string type gate has passed.  The trim check returns immediately with the
trimmed data (the `console.info` debug log in the source has no effect on the
result and is omitted). -/
def ZodString.runChecks : List ZodStringCheck → String → ParseResult
  | [], data => .valid (.str data)
  | check :: rest, data =>
    match check with
    | .min value message =>
      if jsLt (JsNum.ofNat data.length) value then
        .invalid (some (message.getD
          (data ++ " should be at least " ++ jsNumToString value ++ " characters")))
      else ZodString.runChecks rest data
    | .max value message =>
      if jsGt (JsNum.ofNat data.length) value then
        .invalid (some (message.getD
          (data ++ " should be " ++ jsNumToString value ++ " characters or fewer")))
      else ZodString.runChecks rest data
    | .length value message =>
      if !jsNumEq (JsNum.ofNat data.length) value then
        .invalid (some (message.getD
          (data ++ " should be " ++ jsNumToString value ++ " characters")))
      else ZodString.runChecks rest data
    | .email message =>
      if !emailTest data then
        .invalid (some (message.getD "invalid email"))
      else ZodString.runChecks rest data
    | .regex test message =>
      if !test data then
        .invalid (some (message.getD (data ++ " does not satisfies given regex")))
      else ZodString.runChecks rest data
    | .trim _ => .valid (.str (jsTrim data))

/-- The check loop of `ZodNumber._parse`, evaluated in append order after the
number type gate has passed. -/
def ZodNumber.runChecks : List ZodNumberCheck → JsNum → ParseResult
  | [], data => .valid (.num data)
  | check :: rest, data =>
    match check with
    | .min value isInclusive message =>
      if isInclusive then
        if jsLt data value then
          .invalid (some (message.getD
            (jsNumToString data ++ " should be greater than or equal to " ++ jsNumToString value)))
        else ZodNumber.runChecks rest data
      else
        if jsLe data value then
          .invalid (some (message.getD
            (jsNumToString data ++ " should be greater than " ++ jsNumToString value)))
        else ZodNumber.runChecks rest data
    | .max value isInclusive message =>
      if isInclusive then
        if jsGt data value then
          .invalid (some (message.getD
            (jsNumToString data ++ " should be less than or equal to " ++ jsNumToString value)))
        else ZodNumber.runChecks rest data
      else
        if jsGe data value then
          .invalid (some (message.getD
            (jsNumToString data ++ " should be less than " ++ jsNumToString value)))
        else ZodNumber.runChecks rest data
    | .int message =>
      if !jsIsInteger data then
        .invalid (some (message.getD (jsNumToString data ++ " is not an integer")))
      else ZodNumber.runChecks rest data
    | .multipleOf value message =>
      if jsTruthy (floatSafeRemainder data value) then
        .invalid (some (message.getD
          (jsNumToString data ++ " should be multiple of " ++ jsNumToString value)))
      else ZodNumber.runChecks rest data
    | .finite message =>
      if !jsIsFinite data then
        .invalid (some (message.getD (jsNumToString data ++ " is not a finite number")))
      else ZodNumber.runChecks rest data

/-- The schema variants of src/types.ts, as a sum over their definition
records: `ZodString`/`ZodNumber` hold their check lists, `ZodEnum` its value
list, `ZodOptional`/`ZodNullable` their inner schema. -/
inductive Schema where
  | string (checks : List ZodStringCheck)
  | number (checks : List ZodNumberCheck)
  | enum (values : List String)
  | optional (innerType : Schema)
  | nullable (innerType : Schema)

/-- The `_parse` method of each schema variant (src/types.ts): type gates,
then the variant-specific validation. -/
def Schema._parse : Schema → Value → ParseResult
  | .string checks, data =>
    match data with
    | .str s => ZodString.runChecks checks s
    | d => .invalid (some (d.jsToString ++ " is not a string"))
  | .number checks, data =>
    match data with
    | .num n => ZodNumber.runChecks checks n
    | d => .invalid (some (d.jsToString ++ " is not a number"))
  | .enum values, data =>
    match data with
    | .str s =>
      if values.contains s then .valid (.str s)
      else .invalid (some (s ++ " is not a tuple member of " ++ String.intercalate "," values))
    | d => .invalid (some (d.jsToString ++ " should be string"))
  | .optional innerType, data =>
    match data with
    | .undef => .valid .undef
    | d => innerType._parse d
  | .nullable innerType, data =>
    match data with
    | .null => .valid .null
    | d => innerType._parse d

/-- Result of `safeParse`: `{success: true, data}` or
`{success: false, error}` (the error carries its message string). -/
inductive SafeParseResult where
  | success (data : Value)
  | failure (error : String)
deriving DecidableEq, Repr

/-- The `success` discriminant of a safeParse result. -/
def SafeParseResult.success? : SafeParseResult → Bool
  | .success _ => true
  | .failure _ => false

/-- `ZodType.safeParse`: wrap `_parse`, defaulting a missing reason to
"data is invalid". -/
def Schema.safeParse (s : Schema) (data : Value) : SafeParseResult :=
  match s._parse data with
  | .valid d => .success d
  | .invalid r => .failure (r.getD "data is invalid")

/-- `ZodType.parse`: return the data of a successful safeParse, throw the
error of a failed one (throwing is modelled as `Except.error`). -/
def Schema.parse (s : Schema) (data : Value) : Except String Value :=
  match s.safeParse data with
  | .success d => .ok d
  | .failure e => .error e

/-- `ZodOptional.unwrap` / `ZodNullable.unwrap`: `return this._def.innerType`.
Only the wrapper variants have an unwrap method in the source; the other
variants are returned unchanged here. -/
def Schema.unwrap : Schema → Schema
  | .optional innerType => innerType
  | .nullable innerType => innerType
  | s => s

/-- `ZodString._addCheck`: `this._def.checks.push(check)` mutates the
receiver's own check list, and the returned "new" `ZodString` wraps that same
list.  The first component is the receiver's check list after the call, the
second the new instance's; sharing the array makes them equal. -/
def ZodString.addCheck (checks : List ZodStringCheck) (check : ZodStringCheck) :
    List ZodStringCheck × List ZodStringCheck :=
  (checks ++ [check], checks ++ [check])

/-- `ZodNumber._addCheck`, with the same push-then-share behavior as
`ZodString._addCheck`. -/
def ZodNumber.addCheck (checks : List ZodNumberCheck) (check : ZodNumberCheck) :
    List ZodNumberCheck × List ZodNumberCheck :=
  (checks ++ [check], checks ++ [check])

/-- `ZodString.create`: a fresh empty check list. -/
def ZodString.create : List ZodStringCheck := []

/-- `ZodNumber.create`: a fresh empty check list. -/
def ZodNumber.create : List ZodNumberCheck := []

/-- `ZodString.min`, as the check list of the returned schema. -/
def ZodString.min (checks : List ZodStringCheck) (minLength : JsNum) (message : Option String) :
    List ZodStringCheck :=
  (ZodString.addCheck checks (.min minLength message)).2

/-- `ZodString.max`, as the check list of the returned schema. -/
def ZodString.max (checks : List ZodStringCheck) (maxLength : JsNum) (message : Option String) :
    List ZodStringCheck :=
  (ZodString.addCheck checks (.max maxLength message)).2

/-- `ZodString.length`, as the check list of the returned schema. -/
def ZodString.length (checks : List ZodStringCheck) (length : JsNum) (message : Option String) :
    List ZodStringCheck :=
  (ZodString.addCheck checks (.length length message)).2

/-- `ZodString.email`, as the check list of the returned schema. -/
def ZodString.email (checks : List ZodStringCheck) (message : Option String) :
    List ZodStringCheck :=
  (ZodString.addCheck checks (.email message)).2

/-- `ZodString.regex`, as the check list of the returned schema. -/
def ZodString.regex (checks : List ZodStringCheck) (test : String → Bool) (message : Option String) :
    List ZodStringCheck :=
  (ZodString.addCheck checks (.regex test message)).2

/-- `ZodString.trim`, as the check list of the returned schema. -/
def ZodString.trim (checks : List ZodStringCheck) (message : Option String) :
    List ZodStringCheck :=
  (ZodString.addCheck checks (.trim message)).2

/-- `Number.MAX_SAFE_INTEGER` = 2^53 - 1. -/
def maxSafeInteger : JsNum := .finite 9007199254740991 0

/-- `Number.MIN_SAFE_INTEGER` = -(2^53 - 1). -/
def minSafeInteger : JsNum := .finite (-9007199254740991) 0

/-- `ZodNumber.gt`: a non-inclusive min check. -/
def ZodNumber.gt (checks : List ZodNumberCheck) (value : JsNum) (message : Option String) :
    List ZodNumberCheck :=
  (ZodNumber.addCheck checks (.min value false message)).2

/-- `ZodNumber.gte`: an inclusive min check. -/
def ZodNumber.gte (checks : List ZodNumberCheck) (value : JsNum) (message : Option String) :
    List ZodNumberCheck :=
  (ZodNumber.addCheck checks (.min value true message)).2

/-- `ZodNumber.lt`: a non-inclusive max check. -/
def ZodNumber.lt (checks : List ZodNumberCheck) (value : JsNum) (message : Option String) :
    List ZodNumberCheck :=
  (ZodNumber.addCheck checks (.max value false message)).2

/-- `ZodNumber.lte`: an inclusive max check. -/
def ZodNumber.lte (checks : List ZodNumberCheck) (value : JsNum) (message : Option String) :
    List ZodNumberCheck :=
  (ZodNumber.addCheck checks (.max value true message)).2

/-- `ZodNumber.int`. -/
def ZodNumber.int (checks : List ZodNumberCheck) (message : Option String) :
    List ZodNumberCheck :=
  (ZodNumber.addCheck checks (.int message)).2

/-- `ZodNumber.positive`: non-inclusive min at 0. -/
def ZodNumber.positive (checks : List ZodNumberCheck) (message : Option String) :
    List ZodNumberCheck :=
  (ZodNumber.addCheck checks (.min (.finite 0 0) false message)).2

/-- `ZodNumber.nonnegative`: inclusive min at 0. -/
def ZodNumber.nonnegative (checks : List ZodNumberCheck) (message : Option String) :
    List ZodNumberCheck :=
  (ZodNumber.addCheck checks (.min (.finite 0 0) true message)).2

/-- `ZodNumber.negative`: non-inclusive max at 0. -/
def ZodNumber.negative (checks : List ZodNumberCheck) (message : Option String) :
    List ZodNumberCheck :=
  (ZodNumber.addCheck checks (.max (.finite 0 0) false message)).2

/-- `ZodNumber.nonpositive`: inclusive max at 0. -/
def ZodNumber.nonpositive (checks : List ZodNumberCheck) (message : Option String) :
    List ZodNumberCheck :=
  (ZodNumber.addCheck checks (.max (.finite 0 0) true message)).2

/-- `ZodNumber.multipleOf`. -/
def ZodNumber.multipleOf (checks : List ZodNumberCheck) (value : JsNum) (message : Option String) :
    List ZodNumberCheck :=
  (ZodNumber.addCheck checks (.multipleOf value message)).2

/-- `ZodNumber.finite`. -/
def ZodNumber.finite (checks : List ZodNumberCheck) (message : Option String) :
    List ZodNumberCheck :=
  (ZodNumber.addCheck checks (.finite message)).2

/-- `ZodNumber.safe`: chains an inclusive min at MIN_SAFE_INTEGER and an
inclusive max at MAX_SAFE_INTEGER. -/
def ZodNumber.safe (checks : List ZodNumberCheck) (message : Option String) :
    List ZodNumberCheck :=
  (ZodNumber.addCheck
    ((ZodNumber.addCheck checks (.min minSafeInteger true message)).2)
    (.max maxSafeInteger true message)).2

/-- JS `Object.fromEntries`, as the lookup function of the built object:
later entries overwrite earlier ones. -/
def objectFromEntries (entries : List (String × String)) : String → Option String :=
  fun key => (entries.reverse.find? (fun p => p.1 == key)).map (fun p => p.2)

/-- The `ZodEnum.enum` getter: `Object.fromEntries(values.map(v => [v, v]))`,
as the lookup function of the resulting object. -/
def ZodEnum.enumAccessor (values : List String) : String → Option String :=
  objectFromEntries (values.map (fun value => (value, value)))

lemma jsLt_self (v : JsNum) (h : v ≠ .nan) : jsLt v v = false := by
  cases v with
  | nan => exact absurd rfl h
  | posInf => rfl
  | negInf => rfl
  | finite m e => simp [jsLt]

lemma jsLe_self (v : JsNum) (h : v ≠ .nan) : jsLe v v = true := by
  cases v with
  | nan => exact absurd rfl h
  | posInf => rfl
  | negInf => rfl
  | finite m e => simp [jsLe]

lemma jsLt_nan_left (v : JsNum) : jsLt .nan v = false := by cases v <;> rfl

lemma jsLe_nan_left (v : JsNum) : jsLe .nan v = false := by cases v <;> rfl

lemma jsLt_nan_right (v : JsNum) : jsLt v .nan = false := by cases v <;> rfl

lemma jsLe_nan_right (v : JsNum) : jsLe v .nan = false := by cases v <;> rfl

lemma runChecks_bound_nan (checks : List ZodNumberCheck)
    (h : ∀ c ∈ checks, c.isBoundCheck = true) :
    ZodNumber.runChecks checks .nan = .valid (.num .nan) := by
  induction checks with
  | nil => rfl
  | cons c rest ih =>
    have hc := h c (List.mem_cons_self c rest)
    have hrest : ∀ x ∈ rest, x.isBoundCheck = true :=
      fun x hx => h x (List.mem_cons_of_mem c hx)
    cases c with
    | min value isInclusive message =>
      cases isInclusive <;>
        simp [ZodNumber.runChecks, jsLt_nan_left, jsLe_nan_left, ih hrest]
    | max value isInclusive message =>
      cases isInclusive <;>
        simp [ZodNumber.runChecks, jsGt, jsGe, jsLt_nan_right, jsLe_nan_right, ih hrest]
    | int message => simp [ZodNumberCheck.isBoundCheck] at hc
    | multipleOf value message => simp [ZodNumberCheck.isBoundCheck] at hc
    | finite message => simp [ZodNumberCheck.isBoundCheck] at hc

lemma runChecks_append_of_valid (pre rest : List ZodStringCheck) (s : String)
    (h1 : ∀ c ∈ pre, c.isTrim = false)
    (h2 : ZodString.runChecks pre s = .valid (.str s)) :
    ZodString.runChecks (pre ++ rest) s = ZodString.runChecks rest s := by
  induction pre with
  | nil => rfl
  | cons c pre ih =>
    have hc := h1 c (List.mem_cons_self c pre)
    have hpre : ∀ x ∈ pre, x.isTrim = false :=
      fun x hx => h1 x (List.mem_cons_of_mem c hx)
    cases c with
    | min value message =>
      by_cases hcond : jsLt (JsNum.ofNat s.length) value = true
      · simp [ZodString.runChecks, hcond] at h2
      · simp only [Bool.not_eq_true] at hcond
        simp [ZodString.runChecks, hcond] at h2 ⊢
        exact ih hpre h2
    | max value message =>
      by_cases hcond : jsGt (JsNum.ofNat s.length) value = true
      · simp [ZodString.runChecks, hcond] at h2
      · simp only [Bool.not_eq_true] at hcond
        simp [ZodString.runChecks, hcond] at h2 ⊢
        exact ih hpre h2
    | length value message =>
      by_cases hcond : jsNumEq (JsNum.ofNat s.length) value = true
      · simp [ZodString.runChecks, hcond] at h2 ⊢
        exact ih hpre h2
      · simp only [Bool.not_eq_true] at hcond
        simp [ZodString.runChecks, hcond] at h2
    | email message =>
      by_cases hcond : emailTest s = true
      · simp [ZodString.runChecks, hcond] at h2 ⊢
        exact ih hpre h2
      · simp only [Bool.not_eq_true] at hcond
        simp [ZodString.runChecks, hcond] at h2
    | regex test message =>
      by_cases hcond : test s = true
      · simp [ZodString.runChecks, hcond] at h2 ⊢
        exact ih hpre h2
      · simp only [Bool.not_eq_true] at hcond
        simp [ZodString.runChecks, hcond] at h2
    | trim message => simp [ZodStringCheck.isTrim] at hc

lemma findPairEq (l : List String) (k : String) :
    (l.map (fun v => (v, v))).find? (fun p => p.1 == k) =
      if k ∈ l then some (k, k) else none := by
  induction l with
  | nil => rfl
  | cons v t ih =>
    by_cases hv : v = k
    · subst hv; simp [List.find?]
    · have hbeq : (v == k) = false := by simp [hv]
      simp [List.find?, hbeq, ih, Ne.symm hv]

lemma enumAccessor_eq (values : List String) (k : String) :
    ZodEnum.enumAccessor values k = if k ∈ values then some k else none := by
  have h := findPairEq values.reverse k
  simp only [ZodEnum.enumAccessor, objectFromEntries, ← List.map_reverse, h,
    List.mem_reverse]
  split <;> simp_all

/- ------------------------------------------------------------------ -/
/- Claim theorems                                                      -/
/- ------------------------------------------------------------------ -/

/-- Claim C1: contrary to the ownership rule, `_addCheck` does not operate on
an owned copy: it pushes onto the receiver's own check list and the new schema
aliases that list.  Evaluated at the failing input: a fresh `z.string()`
accepts "a"; after `S.min(5)` runs, the receiver's check list has gained the
min check, so `S.safeParse("a")` now fails, and the receiver's list after the
call equals the new schema's list. -/
theorem addCheck_mutates_receiver :
    (Schema.safeParse (.string ZodString.create) (.str "a")).success? = true
  ∧ (Schema.safeParse
      (.string (ZodString.addCheck ZodString.create (.min (.finite 5 0) none)).1)
      (.str "a")).success? = false
  ∧ (ZodString.addCheck ZodString.create (.min (.finite 5 0) none)).1
      = (ZodString.addCheck ZodString.create (.min (.finite 5 0) none)).2 :=
  ⟨by decide, by decide, rfl⟩

/-- Claim C2: for every schema and value, safeParse totally returns a
discriminated success/failure result; its success flag is false exactly when
parse raises; parse returns the same data on success and raises the same
error on failure. -/
theorem safeParse_parse_agree (S : Schema) (V : Value) :
    ((∃ d, S.safeParse V = .success d) ∨ (∃ e, S.safeParse V = .failure e))
  ∧ ((S.safeParse V).success? = false ↔ ∃ e, S.parse V = .error e)
  ∧ (∀ d, S.safeParse V = .success d ↔ S.parse V = .ok d)
  ∧ (∀ e, S.safeParse V = .failure e ↔ S.parse V = .error e) := by
  cases h : S.safeParse V with
  | success d =>
    refine ⟨Or.inl ⟨d, rfl⟩, ?_, ?_, ?_⟩ <;>
      simp [Schema.parse, h, SafeParseResult.success?]
  | failure e =>
    refine ⟨Or.inr ⟨e, rfl⟩, ?_, ?_, ?_⟩ <;>
      simp [Schema.parse, h, SafeParseResult.success?]

/-- Claim C3: a trim check is terminal.  If every check before it is not a
trim and all of them pass on the input string, validation succeeds with the
whitespace-trimmed string, and no check appended after the trim is ever
evaluated (the result does not depend on `post`). -/
theorem trim_is_terminal (pre post : List ZodStringCheck) (message : Option String) (s : String)
    (h1 : ∀ c ∈ pre, c.isTrim = false)
    (h2 : ZodString.runChecks pre s = .valid (.str s)) :
    Schema.safeParse (.string (pre ++ ZodStringCheck.trim message :: post)) (.str s)
      = .success (.str (jsTrim s)) := by
  simp [Schema.safeParse, Schema._parse, runChecks_append_of_valid pre _ s h1 h2,
    ZodString.runChecks]

/-- Witness for C3 at `string().trim().min(5)` on " ab": the min check after
trim is skipped, and the data is the trimmed string. -/
theorem trim_is_terminal_witness :
    Schema.safeParse
      (.string [ZodStringCheck.trim none, ZodStringCheck.min (.finite 5 0) none])
      (.str " ab") = .success (.str (jsTrim " ab"))
  ∧ jsTrim " ab" = "ab" :=
  ⟨trim_is_terminal [] [.min (.finite 5 0) none] none " ab" (by simp) rfl, by decide⟩

/-- Counterexample to Claim C5 as stated: at v = NaN, `gt(v).parse(v)` does
not fail — the comparison `NaN <= NaN` is false, so the non-inclusive min
check passes and NaN is returned. -/
theorem gt_nan_boundary_counterexample :
    Schema.safeParse (.number (ZodNumber.gt ZodNumber.create .nan none)) (.num .nan)
      = .success (.num .nan) := by decide

/-- Claim C5 (amended to non-NaN v): bounds are boundary-exact — `gte(v)`
accepts v while `gt(v)` rejects it, `lte(v)` accepts v while `lt(v)` rejects
it; and gt/gte are min checks while lt/lte are max checks with the inclusive
flag toggling the comparison. -/
theorem bound_checks_boundary_exact (v : JsNum) (hv : v ≠ .nan) :
    Schema.safeParse (.number (ZodNumber.gte ZodNumber.create v none)) (.num v)
      = .success (.num v)
  ∧ (Schema.safeParse (.number (ZodNumber.gt ZodNumber.create v none)) (.num v)).success? = false
  ∧ Schema.safeParse (.number (ZodNumber.lte ZodNumber.create v none)) (.num v)
      = .success (.num v)
  ∧ (Schema.safeParse (.number (ZodNumber.lt ZodNumber.create v none)) (.num v)).success? = false
  ∧ ZodNumber.gt ZodNumber.create v none = [.min v false none]
  ∧ ZodNumber.gte ZodNumber.create v none = [.min v true none]
  ∧ ZodNumber.lt ZodNumber.create v none = [.max v false none]
  ∧ ZodNumber.lte ZodNumber.create v none = [.max v true none] := by
  refine ⟨?_, ?_, ?_, ?_, rfl, rfl, rfl, rfl⟩ <;>
    simp [Schema.safeParse, Schema._parse, ZodNumber.runChecks, ZodNumber.gte, ZodNumber.gt,
      ZodNumber.lte, ZodNumber.lt, ZodNumber.addCheck, ZodNumber.create,
      jsGt, jsGe, jsLt_self v hv, jsLe_self v hv, SafeParseResult.success?]

/-- Witness for C5 at v = 5: `gte(5).parse(5)` succeeds and `gt(5).parse(5)`
fails. -/
theorem bound_checks_boundary_exact_witness :
    Schema.safeParse (.number (ZodNumber.gte ZodNumber.create (.finite 5 0) none))
      (.num (.finite 5 0)) = .success (.num (.finite 5 0))
  ∧ (Schema.safeParse (.number (ZodNumber.gt ZodNumber.create (.finite 5 0) none))
      (.num (.finite 5 0))).success? = false :=
  ⟨(bound_checks_boundary_exact (.finite 5 0) (by decide)).1,
   (bound_checks_boundary_exact (.finite 5 0) (by decide)).2.1⟩

/-- Claim C6: `safe()` is exactly sugar for
`gte(Number.MIN_SAFE_INTEGER).lte(Number.MAX_SAFE_INTEGER)`: the two builder
chains produce the same check list, hence the same safeParse result on every
input. -/
theorem safe_is_min_max_sugar (V : Value) :
    ZodNumber.safe ZodNumber.create none
      = ZodNumber.lte (ZodNumber.gte ZodNumber.create minSafeInteger none) maxSafeInteger none
  ∧ Schema.safeParse (.number (ZodNumber.safe ZodNumber.create none)) V
      = Schema.safeParse
          (.number (ZodNumber.lte (ZodNumber.gte ZodNumber.create minSafeInteger none)
            maxSafeInteger none)) V :=
  ⟨rfl, rfl⟩

/-- Claim C7: `optional(S)` accepts `undefined` immediately and `nullable(S)`
accepts `null` immediately; on every other input both wrappers return exactly
the inner schema's `_parse` result; `unwrap` returns the inner schema
unchanged, so `optional(S).unwrap()` rejects `undefined` whenever S does. -/
theorem optional_nullable_wrappers (S : Schema) :
    Schema.parse (.optional S) .undef = .ok .undef
  ∧ Schema.parse (.nullable S) .null = .ok .null
  ∧ (∀ V : Value, V ≠ .undef → Schema._parse (.optional S) V = Schema._parse S V)
  ∧ (∀ V : Value, V ≠ .null → Schema._parse (.nullable S) V = Schema._parse S V)
  ∧ (Schema.optional S).unwrap = S
  ∧ (Schema.nullable S).unwrap = S
  ∧ ((Schema.safeParse S .undef).success? = false →
      (Schema.safeParse ((Schema.optional S).unwrap) .undef).success? = false) := by
  refine ⟨rfl, rfl, ?_, ?_, rfl, rfl, fun h => h⟩
  · intro V hV; cases V <;> first | rfl | exact absurd rfl hV
  · intro V hV; cases V <;> first | rfl | exact absurd rfl hV

/-- Witness for C7 at S = `z.string()`: `optional(S).parse(undefined)`
succeeds with undefined, a non-undefined value is delegated to S, and
`optional(S).unwrap().parse(undefined)` fails since `z.string()` rejects
undefined. -/
theorem optional_nullable_wrappers_witness :
    Schema.parse (.optional (.string [])) .undef = .ok .undef
  ∧ Schema._parse (.optional (.string [])) (.num (.finite 1 0))
      = Schema._parse (.string []) (.num (.finite 1 0))
  ∧ (Schema.safeParse ((Schema.optional (.string [])).unwrap) .undef).success? = false :=
  ⟨(optional_nullable_wrappers (.string [])).1,
   (optional_nullable_wrappers (.string [])).2.2.1 (.num (.finite 1 0)) (fun h => nomatch h),
   (optional_nullable_wrappers (.string [])).2.2.2.2.2.2 (by decide)⟩

/-- Claim C8: an Enum schema over a non-empty value list rejects every
non-string input; a string succeeds exactly when it is an exact,
case-sensitive member of the list (with the input itself as data); and the
`.enum` accessor maps each literal to itself and nothing else. -/
theorem enum_membership (values : List String) (_h : values ≠ []) :
    (∀ V : Value, (∀ s, V ≠ .str s) → (Schema.safeParse (.enum values) V).success? = false)
  ∧ (∀ s : String, Schema.safeParse (.enum values) (.str s)
      = if values.contains s then .success (.str s)
        else .failure (s ++ " is not a tuple member of " ++ String.intercalate "," values))
  ∧ (∀ s ∈ values, ZodEnum.enumAccessor values s = some s)
  ∧ (∀ s, s ∉ values → ZodEnum.enumAccessor values s = none) := by
  refine ⟨?_, ?_, ?_, ?_⟩
  · intro V hV
    cases V with
    | str s => exact absurd rfl (hV s)
    | num n => rfl
    | bool b => rfl
    | undef => rfl
    | null => rfl
  · intro s
    by_cases hs : s ∈ values <;>
      simp [Schema.safeParse, Schema._parse, hs]
  · intro s hs; simp [enumAccessor_eq, hs]
  · intro s hs; simp [enumAccessor_eq, hs]

/-- Witness for C8 at `enum(["A","B"])`: "A" is accepted with itself as data,
"a" (wrong case) and a number are rejected, and the `.enum` accessor equals
the mapping A to "A", B to "B" and nothing else. -/
theorem enum_membership_witness :
    Schema.safeParse (.enum ["A", "B"]) (.str "A") = .success (.str "A")
  ∧ (Schema.safeParse (.enum ["A", "B"]) (.str "a")).success? = false
  ∧ (Schema.safeParse (.enum ["A", "B"]) (.num (.finite 1 0))).success? = false
  ∧ ZodEnum.enumAccessor ["A", "B"] "A" = some "A"
  ∧ ZodEnum.enumAccessor ["A", "B"] "B" = some "B"
  ∧ ZodEnum.enumAccessor ["A", "B"] "C" = none := by
  have t := enum_membership ["A", "B"] (by decide)
  refine ⟨?_, ?_, ?_, ?_, ?_, ?_⟩
  · simpa using t.2.1 "A"
  · have := t.2.1 "a"
    simp at this
    simp [this, SafeParseResult.success?]
  · exact t.1 (.num (.finite 1 0)) (fun s h => nomatch h)
  · exact t.2.2.1 "A" (by decide)
  · exact t.2.2.1 "B" (by decide)
  · exact t.2.2.2 "C" (by decide)

/-- Claim C9: NaN passes the number type gate and every min/max bound check
(every comparison against NaN is false), so a Number schema built only from
bound checks accepts NaN with NaN as data. -/
theorem nan_passes_bound_checks (checks : List ZodNumberCheck)
    (h : ∀ c ∈ checks, c.isBoundCheck = true) :
    Schema.safeParse (.number checks) (.num .nan) = .success (.num .nan) := by
  simp [Schema.safeParse, Schema._parse, runChecks_bound_nan checks h]

/-- Witness for C9 at `z.number().gt(5)`: parsing NaN succeeds with NaN. -/
theorem nan_passes_bound_checks_witness :
    Schema.safeParse (.number (ZodNumber.gt ZodNumber.create (.finite 5 0) none))
      (.num .nan) = .success (.num .nan) :=
  nan_passes_bound_checks (ZodNumber.gt ZodNumber.create (.finite 5 0) none) (by decide)

/-- Claim C10: `multipleOf(0)` accepts every number: the float-safe remainder
by 0 is NaN (integer remainder by zero), NaN is falsy, so the check never
fails. -/
theorem multipleOf_zero_accepts_every_number (n : JsNum) :
    Schema.safeParse (.number (ZodNumber.multipleOf ZodNumber.create (.finite 0 0) none))
      (.num n) = .success (.num n) := by
  cases n with
  | nan => rfl
  | posInf => rfl
  | negInf => rfl
  | finite m e =>
    simp [Schema.safeParse, Schema._parse, ZodNumber.runChecks, ZodNumber.multipleOf,
      ZodNumber.addCheck, ZodNumber.create, floatSafeRemainder, toFixedInt, normFin,
      jsTruthy]

end Zod
